import Mathlib

/-!
Verification development for the APON-INFO-BOT repository
(src/main.py, src/config.py).

The Python program is shallowly embedded: JSON values become an inductive
type, Python dicts become association lists, wall-clock timestamps become
integers counting seconds, and code that can raise an exception returns
`Except`/`Option`.  Each definition mirrors the source function whose name
it carries; configuration constants are copied from src/config.py.
-/

namespace FFInfoBot

/-- JSON values as delivered by the upstream API and stored in the user
database.  Numbers are modelled as integers (no claim depends on
fractional values). -/
inductive Json where
  | null
  | bool (b : Bool)
  | num (n : Int)
  | str (s : String)
  | arr (elems : List Json)
  | obj (fields : List (String × Json))

/-- First-match association-list lookup; models Python `dict.get` /
`dict[...]` on the embedded dictionaries (`main.py` never relies on
duplicate keys, and JSON objects parsed by `json` have unique keys). -/
def alookup {α : Type} : List (String × α) → String → Option α
  | [], _ => none
  | (k, v) :: rest, key => if key = k then some v else alookup rest key

/-- Python truthiness (`bool(x)`) restricted to JSON values: `None`,
`False`, `0`, `""`, `[]` and x7b x7d are falsy, everything else truthy.
Used by `if data.get(success_key, False):` and `if not player_data:`
in `fetch_player_data` (main.py lines 216 and 222). -/
def Json.truthy : Json → Bool
  | .null => false
  | .bool b => b
  | .num n => n != 0
  | .str s => s ≠ ""
  | .arr elems => !elems.isEmpty
  | .obj fields => !fields.isEmpty

/-- Membership of a JSON value in the Python list `[None, "", "N/A"]`
(by `==`), as tested by `get_value` in `format_profile`
(main.py lines 282 and 286). -/
def Json.isNAish : Json → Bool
  | .null => true
  | .str s => s = "" || s = "N/A"
  | _ => false

/-- `True` exactly for JSON objects (Python `isinstance(value, dict)`). -/
def Json.isObj : Json → Bool
  | .obj _ => true
  | _ => false

/-! ## Configuration (src/config.py) -/

/-- config.py: `OWNER_ID = 6678577936`. -/
def OWNER_ID : Int := 6678577936

/-- config.py: `OWNER_USERNAME = "developer_apon"`. -/
def OWNER_USERNAME : String := "developer_apon"

/-- config.py: `CHECK_INTERVAL = 300` (seconds). -/
def CHECK_INTERVAL : Int := 300

/-- config.py: `API_BASE_URL`. -/
def API_BASE_URL : String := "https://kallu-ff-info-api.vercel.app"

/-- config.py: `API_ENDPOINT`. -/
def API_ENDPOINT : String := "/accinfo"

/-- config.py: `DATABASE_FILE = "users.json"`. -/
def DATABASE_FILE : String := "users.json"

/-- `API_MAPPING.get("success_key", "success")` with the value from
config.py. -/
def success_key : String := "success"

/-- `API_MAPPING.get("data_key", "data")` with the value from config.py. -/
def data_key : String := "data"

/-- `API_MAPPING.get("error_key", "error")` with the value from
config.py. -/
def error_key : String := "error"

/-- config.py: `API_MAPPING["player"]`, the logical-field to
source-path table used by `format_profile`. -/
def player_map : List (String × String) :=
  [("nickname", "nickname"), ("level", "level"), ("uid", "uid"),
   ("likes", "likes"), ("region", "region"), ("guild", "guild"),
   ("br_rank", "br_rank"), ("cs_rank", "cs_rank"), ("avatar", "avatar"),
   ("bio", "bio"), ("badges", "badges"), ("honor_score", "honor_score"),
   ("created_at", "created_at"), ("last_login", "last_login")]

/-- `player_map.get(field, default)` as used at main.py lines 289-297. -/
def playerMapGet (field : String) (dflt : String) : String :=
  (alookup player_map field).getD dflt

/-- A channel requirement from config.py `REQUIRED_CHANNELS`. -/
structure Channel where
  username : String
  url : String
  name : String

/-- config.py: `REQUIRED_CHANNELS` (two channels). -/
def REQUIRED_CHANNELS : List Channel :=
  [{ username := "developer_apon_07",
     url := "https://t.me/developer_apon_07",
     name := "Apon Developers Hub 💻" },
   { username := "fftigerteamguild",
     url := "https://t.me/fftigerteamguild",
     name := "FF Tiger Team Guild" }]

/-! ## Upstream client: `fetch_player_data` (main.py lines 175-255)

The network interaction is represented by the outcome the `requests`
call can have: a response carrying a status code and decoded JSON body,
or one of the exception classes caught at lines 244-255. -/

/-- Outcome of the `requests.get` call in `fetch_player_data`. -/
inductive HttpOutcome where
  | response (status : Nat) (body : Json)
  | timeout
  | connectionError
  | requestError (msg : String)
  | otherError (msg : String)

/-- The dictionary `fetch_player_data` returns:
`{"success": True, "data": d, "raw": r}` or
`{"success": False, "error": e}` (the error value is stored as-is,
hence a JSON value). -/
inductive LookupResult where
  | ok (data : Json) (raw : Json)
  | err (e : Json)

/-- `fetch_player_data` (main.py lines 175-255) as a function of the HTTP
outcome.  The claims do not concern the request construction
(parameters, headers, URL), only the classification of the outcome,
which is mirrored branch by branch. -/
def fetch_player_data (outcome : HttpOutcome) : LookupResult :=
  match outcome with
  | .response status body =>
    if status = 200 then
      match body with
      | .obj fields =>
        if ((alookup fields success_key).getD (.bool false)).truthy then
          let player_data := (alookup fields data_key).getD (.obj [])
          let player_data := if player_data.truthy then player_data else .obj fields
          .ok player_data (.obj fields)
        else
          .err ((alookup fields error_key).getD (.str "Unknown error from API"))
      | _ => .err (.str "Invalid API response format")
    else
      .err (.str ("API Error: " ++ toString status))
  | .timeout => .err (.str "Timeout - Server is slow")
  | .connectionError => .err (.str "Connection error - API might be down")
  | .requestError m => .err (.str ("Request failed: " ++ m.take 50))
  | .otherError m => .err (.str ("Unexpected error: " ++ m.take 50))

/-! ## Field mapper: `format_profile` and its inner `get_value`
(main.py lines 257-331) -/

/-- Helper for `splitDot`: split a character list at every dot,
accumulating the current segment in reverse. -/
def splitDotAux : List Char → List Char → List String
  | acc, [] => [String.mk acc.reverse]
  | acc, c :: rest =>
    if c = '.' then String.mk acc.reverse :: splitDotAux [] rest
    else splitDotAux (c :: acc) rest

/-- Python `key.split(".")`.  For the single-character separator used in
the source this character-level split coincides with Python string
split (including empty segments for consecutive dots). -/
def splitDot (key : String) : List String := splitDotAux [] key.data

/-- Python `"." in key` (a one-character substring test, hence a
character membership test). -/
def strContainsDot (key : String) : Bool := key.data.contains '.'

/-- The loop body of the dotted-path branch of `get_value`
(main.py lines 275-282): walk the parts, replacing a missing key by
`"N/A"` and bailing out with `"N/A"` on a non-dict value; afterwards
the `value not in [None, "", "N/A"]` filter is applied. -/
def walkParts : Json → List String → Json
  | v, [] => if v.isNAish then .str "N/A" else v
  | v, part :: rest =>
    match v with
    | .obj fields => walkParts ((alookup fields part).getD (.str "N/A")) rest
    | _ => .str "N/A"

/-- `True` when the dotted-path walk hits a missing key or a non-mapping
intermediate value at some step (the situations the spec says must
yield the sentinel). -/
def missesAt : Json → List String → Bool
  | _, [] => false
  | v, part :: rest =>
    match v with
    | .obj fields =>
      match alookup fields part with
      | none => true
      | some v2 => missesAt v2 rest
    | _ => true

/-- The helper `get_value` defined inside `format_profile`
(main.py lines 269-286).  `data.get(key, "N/A")` on a non-dict `data`
raises `AttributeError` in Python; that is the `Except.error` case
(caught by the enclosing `try` of `format_profile`). -/
def get_value (data : Json) (key : String) : Except Unit Json :=
  if key = "" then .ok (.str "N/A")
  else if strContainsDot key then
    .ok (walkParts data (splitDot key))
  else
    match data with
    | .obj fields =>
      let v := (alookup fields key).getD (.str "N/A")
      .ok (if v.isNAish then .str "N/A" else v)
    | _ => .error ()

/-- Rendering of a JSON value inside the profile f-string (Python
`str()`).  The rendering of list/dict values abstracts from Python's
exact `repr` punctuation; no claim depends on the rendered text of a
container value. -/
def jsonDisplay : Json → String
  | .null => "None"
  | .bool b => if b then "True" else "False"
  | .num n => toString n
  | .str s => s
  | .arr _ => "[...]"
  | .obj _ => "\x7b...\x7d"

/-- The profile template of `format_profile` (main.py lines 300-326);
`nowStr` stands for `datetime.now().strftime(...)`. -/
def profileText (uid nowStr nickname level likes region guild br_rank
    cs_rank badges honor : String) : String :=
  "🎮 **FREE FIRE PLAYER INFO**\n\n" ++
  "━━━━━━━━━━━━━━━━━━━━━\n👤 **PLAYER DETAILS**\n━━━━━━━━━━━━━━━━━━━━━\n" ++
  "✨ **Name:** " ++ nickname ++ "\n" ++
  "🆔 **UID:** " ++ uid ++ "\n" ++
  "📊 **Level:** " ++ level ++ "\n" ++
  "❤️ **Likes:** " ++ likes ++ "\n" ++
  "🌍 **Region:** " ++ region ++ "\n" ++
  "🏰 **Guild:** " ++ guild ++ "\n" ++
  "🎖️ **Badges:** " ++ badges ++ "\n" ++
  "🛡️ **Honor Score:** " ++ honor ++ "\n\n" ++
  "━━━━━━━━━━━━━━━━━━━━━\n🏆 **RANKINGS**\n━━━━━━━━━━━━━━━━━━━━━\n" ++
  "🥇 **BR Rank:** " ++ br_rank ++ "\n" ++
  "🥈 **CS Rank:** " ++ cs_rank ++ "\n\n" ++
  "━━━━━━━━━━━━━━━━━━━━━\n⏰ **Last Update:** " ++ nowStr ++ "\n\n" ++
  "━━━━━━━━━━━━━━━━━━━━━\n👑 **Developer:** @" ++ OWNER_USERNAME ++ "\n" ++
  "⚡ **Powered by:** Apon Developers Hub 💻\n"

/-- `format_profile(api_result, uid)` (main.py lines 257-331).
The `success` test on the returned dictionary is the `LookupResult`
constructor; `data = api_result.get("data", {})` is the payload of
`.ok`.  An exception escaping any `get_value` call is caught by the
enclosing `try` and turned into `None`. -/
def format_profile (api_result : LookupResult) (uid nowStr : String) :
    Option String :=
  match api_result with
  | .err _ => none
  | .ok data _raw =>
    match (do
      let nickname ← get_value data (playerMapGet "nickname" "nickname")
      let level ← get_value data (playerMapGet "level" "level")
      let likes ← get_value data (playerMapGet "likes" "likes")
      let region ← get_value data (playerMapGet "region" "region")
      let guild ← get_value data (playerMapGet "guild" "guild")
      let br_rank ← get_value data (playerMapGet "br_rank" "br_rank")
      let cs_rank ← get_value data (playerMapGet "cs_rank" "cs_rank")
      let badges ← get_value data (playerMapGet "badges" "badges")
      let honor ← get_value data (playerMapGet "honor_score" "honor_score")
      Except.ok (profileText uid nowStr (jsonDisplay nickname)
        (jsonDisplay level) (jsonDisplay likes) (jsonDisplay region)
        (jsonDisplay guild) (jsonDisplay br_rank) (jsonDisplay cs_rank)
        (jsonDisplay badges) (jsonDisplay honor)) : Except Unit String) with
    | .ok s => some s
    | .error _ => none

/-! ## User database: class `UserDatabase` (main.py lines 24-86)

Records are the dictionaries `set_verified` writes
(`{'verified': ..., 'last_check': ..., 'joined_at': ...}`); each field
is optional because `is_verified` and `set_verified` read them with
`dict.get` defaults, so a record loaded from disk may lack a field.
Timestamps are integers counting seconds (the source stores
`datetime.now().isoformat()` strings and compares `datetime` values;
the claims only depend on the order and differences of instants). -/

structure UserRecord where
  verified : Option Bool
  last_check : Option Int
  joined_at : Option Int
  deriving DecidableEq, Repr

/-- The in-memory `self.users` dictionary: user id (string) to record. -/
abbrev Users := List (String × UserRecord)

/-- `datetime.fromisoformat('2000-01-01')`, the default used when a
record has no `last_check` (main.py line 55 and line 432), as seconds
since the epoch. -/
def DEFAULT_LAST_CHECK : Int := 946684800

/-- Python `self.users[user_id] = record`: replace any existing binding
for the key. -/
def dbInsert (db : Users) (uid : String) (r : UserRecord) : Users :=
  (uid, r) :: db.filter (fun p => p.1 != uid)

/-- `UserDatabase.is_verified` (main.py lines 48-61); `now` stands for
`datetime.now()`. -/
def is_verified (db : Users) (now : Int) (uid : String) : Bool :=
  match alookup db uid with
  | none => false
  | some r =>
    let last_check := r.last_check.getD DEFAULT_LAST_CHECK
    if now - last_check > CHECK_INTERVAL then false
    else r.verified.getD false

/-- `UserDatabase.set_verified` (main.py lines 63-71); `now` stands for
`datetime.now()` (used for both the `last_check` stamp and the
`joined_at` default of a fresh record). -/
def set_verified (db : Users) (now : Int) (uid : String) (verified : Bool) :
    Users :=
  dbInsert db uid
    { verified := some verified,
      last_check := some now,
      joined_at := some (((alookup db uid).bind (·.joined_at)).getD now) }

/-- `UserDatabase.get_user_stats` (main.py lines 73-77). -/
def get_user_stats (db : Users) : Nat × Nat :=
  (db.length,
   (db.filter (fun p => (p.2.verified).getD false)).length)

/-- `UserDatabase.remove_user` (main.py lines 79-86). -/
def remove_user (db : Users) (uid : String) : Users × Bool :=
  match alookup db uid with
  | some _ => (db.filter (fun p => p.1 != uid), true)
  | none => (db, false)

/-- `last_check` of a user's record, when the record exists and carries
one. -/
def lcOf (db : Users) (uid : String) : Option Int :=
  (alookup db uid).bind (·.last_check)

/-- The database operations the handlers perform, for the sequencing
invariant: `set_verified` (every verification check ends in one, see
`verify_user`, main.py lines 114-126), `remove_user`, and the read-only
operations. -/
inductive DbOp where
  | setOp (uid : String) (flag : Bool)
  | removeOp (uid : String)
  | readOp
  deriving DecidableEq, Repr

/-- One database operation performed at instant `t`. -/
def dbStep (db : Users) : Int × DbOp → Users
  | (t, .setOp uid flag) => set_verified db t uid flag
  | (_, .removeOp uid) => (remove_user db uid).1
  | (_, .readOp) => db

/-- A sequence of timestamped database operations. -/
def dbExec (db : Users) (ops : List (Int × DbOp)) : Users :=
  ops.foldl dbStep db

/-- Every `last_check` stored in `db` is at most `b` (all stored stamps
lie in the past of instant `b`). -/
def dbBound (b : Int) (db : Users) : Prop :=
  ∀ uid t, lcOf db uid = some t → t ≤ b

/-- The largest instant among `b` and the timestamps of `ops` (the
bound on stored stamps after executing `ops` against a `b`-bounded
database). -/
def endTime (b : Int) (ops : List (Int × DbOp)) : Int :=
  ops.foldl (fun acc p => max acc p.1) b

/-! ## Membership check: `check_membership` (main.py lines 94-112) -/

/-- Outcome of one `context.bot.get_chat_member` call: the reported
status string, or the call raised. -/
inductive MemberQuery where
  | ok (status : String)
  | failed
  deriving DecidableEq, Repr

/-- `check_membership` (main.py lines 94-112) as a function of the
per-channel query outcomes (`query c` is what `get_chat_member` does
for channel username `c`).  The loop returns `False` on the first
channel whose status is `left` or `kicked` or whose query raises,
querying each configured channel at most once and never retrying. -/
def membership_loop (query : String → MemberQuery) : List Channel → Bool
  | [] => true
  | c :: rest =>
    match query c.username with
    | .ok status =>
      if status = "left" ∨ status = "kicked" then false
      else membership_loop query rest
    | .failed => false

/-- `check_membership` applied to the configured channel list. -/
def check_membership (query : String → MemberQuery) : Bool :=
  membership_loop query REQUIRED_CHANNELS

/-! ## UID validation in `handle_uid` (main.py lines 506-530) -/

/-- Python `str.isdigit` character test, modelled for the code points of
the Unicode decimal-digit blocks enumerated below (ASCII digits,
superscript and subscript digits, Arabic-Indic, Extended Arabic-Indic,
Devanagari and Bengali digits); Python accepts the remaining Unicode
digit blocks in the same way, and the claims only need that the test
accepts all ASCII digits and at least one non-ASCII digit. -/
def pyIsDigitChar (c : Char) : Bool :=
  (0x30 ≤ c.toNat && c.toNat ≤ 0x39) ||
  c.toNat = 0xB2 || c.toNat = 0xB3 || c.toNat = 0xB9 ||
  c.toNat = 0x2070 || (0x2074 ≤ c.toNat && c.toNat ≤ 0x2079) ||
  (0x2080 ≤ c.toNat && c.toNat ≤ 0x2089) ||
  (0x660 ≤ c.toNat && c.toNat ≤ 0x669) ||
  (0x6F0 ≤ c.toNat && c.toNat ≤ 0x6F9) ||
  (0x966 ≤ c.toNat && c.toNat ≤ 0x96F) ||
  (0x9E6 ≤ c.toNat && c.toNat ≤ 0x9EF)

/-- Python `uid.isdigit()`: non-empty and every character a digit. -/
def pyIsDigit (s : String) : Bool :=
  !s.data.isEmpty && s.data.all pyIsDigitChar

/-- The ASCII-digit test of the spec sentence: written from the spec
words `^[0-9]{5,15}$` (matching requires only ASCII digits 0-9 and a
length of 5 to 15), to be compared with the validation the code
performs. -/
def spec_regex_match (s : String) : Bool :=
  s.data.all (fun c => 0x30 ≤ c.toNat && c.toNat ≤ 0x39) &&
  5 ≤ s.length && s.length ≤ 15

/-- main.py lines 516-521: the numeric-validation error text. -/
def invalid_uid_msg : String :=
  "❌ **Invalid UID!**\nPlease enter only numbers.\nExample: `1484443876`"

/-- main.py lines 525-529: the length-validation error text. -/
def invalid_len_msg : String :=
  "❌ **Invalid UID length!**\nFree Fire UID should be 5-15 digits."

/-- What the validation section of `handle_uid` decides: reply with a
validation error and stop, or proceed to call `fetch_player_data`. -/
inductive UidAction where
  | validationError (msg : String)
  | upstreamFetch (uid : String)
  deriving DecidableEq, Repr

/-- The validation section of `handle_uid` (main.py lines 514-541),
applied to the stripped message text for a verified user:
`if not uid.isdigit()` then the numeric error,
`if len(uid) < 5 or len(uid) > 15` then the length error, otherwise the
upstream fetch for `uid` is performed. -/
def handle_uid_validation (uid : String) : UidAction :=
  if ¬(pyIsDigit uid = true) then .validationError invalid_uid_msg
  else if uid.length < 5 ∨ uid.length > 15 then .validationError invalid_len_msg
  else .upstreamFetch uid

/-! ## Owner commands: `stats_command` (main.py lines 417-452) and
`broadcast_command` (main.py lines 454-504) -/

/-- Externally visible side effects of a command handler.
`checkMembershipQuery` is the effect `verify_user`/`check_membership`
would contribute; the owner commands never emit it. -/
inductive Effect where
  | reply (text : String)
  | send (chat : String) (text : String)
  | editReply (text : String)
  | checkMembershipQuery (user : Int)
  deriving DecidableEq, Repr

/-- The user count of records with a `last_check` within 24 hours
(main.py lines 429-434; `timedelta(hours=24)` is 86400 seconds). -/
def active_users (db : Users) (now : Int) : Nat :=
  (db.filter (fun p =>
    now - (p.2.last_check.getD DEFAULT_LAST_CHECK) < 86400)).length

/-- The statistics text of `stats_command` (main.py lines 436-451);
`nowStr` stands for the `strftime` rendering of `now`. -/
def stats_text (db : Users) (now : Int) (nowStr : String) : String :=
  "📊 **BOT STATISTICS**\n\n👥 **Users:**\n├ Total: " ++
  toString (get_user_stats db).1 ++
  "\n├ Verified: " ++ toString (get_user_stats db).2 ++
  "\n├ Unverified: " ++ toString ((get_user_stats db).1 - (get_user_stats db).2) ++
  "\n└ Active (24h): " ++ toString (active_users db now) ++
  "\n\n⚙️ **System:**\n├ Check Interval: " ++ toString CHECK_INTERVAL ++
  "s\n├ API URL: " ++ API_BASE_URL ++
  "\n├ Endpoint: " ++ API_ENDPOINT ++
  "\n└ Database: " ++ DATABASE_FILE ++
  "\n\n⏰ **Last Update:** " ++ nowStr ++ "\n"

/-- The fixed denial text of `stats_command` (main.py line 423). -/
def stats_denied_msg : String :=
  "❌ **Access Denied!**\nThis command is for owner only."

/-- The fixed denial text of `broadcast_command` (main.py line 460). -/
def broadcast_denied_msg : String := "❌ **Access Denied!**"

/-- `stats_command` (main.py lines 417-452): owner identity check, then
the statistics reply.  It reads the database but never writes it and
performs no membership check. -/
def stats_command (caller : Int) (db : Users) (now : Int) (nowStr : String) :
    Users × List Effect :=
  if caller ≠ OWNER_ID then (db, [.reply stats_denied_msg])
  else (db, [.reply (stats_text db now nowStr)])

/-- The per-user broadcast text (main.py line 489). -/
def broadcast_text (message : String) : String :=
  "📢 **BROADCAST MESSAGE**\n\n" ++ message ++ "\n\n- @" ++ OWNER_USERNAME

/-- The confirmation text sent before broadcasting
(main.py lines 474-478): it announces `len(db.users)` as the audience. -/
def broadcast_confirm_msg (total : Nat) (message : String) : String :=
  "📢 **Broadcasting to " ++ toString total ++ " users...**\n\nMessage: " ++
  message ++ "\n\nThis may take a few minutes."

/-- The completion text (main.py lines 499-504). -/
def broadcast_done_msg (sent failed total : Nat) : String :=
  "✅ **Broadcast Complete!**\n\n📨 Sent: " ++ toString sent ++
  "\n❌ Failed: " ++ toString failed ++
  "\n👥 Total users: " ++ toString total

/-- `broadcast_command` (main.py lines 454-504).  `args` is
`context.args`; `sendOk uid` tells whether `bot.send_message` to that
chat succeeds or raises (the only effect of a failure is the `failed`
counter).  The command loops over `db.users.items()` and attempts a
send exactly for the records whose `verified` flag is truthy; the
database itself is never mutated. -/
def broadcast_command (caller : Int) (args : List String) (db : Users)
    (sendOk : String → Bool) : Users × List Effect :=
  if caller ≠ OWNER_ID then (db, [.reply broadcast_denied_msg])
  else if args.isEmpty then
    (db, [.reply ("Usage: /broadcast Your message here\n\n" ++
      "Example: /broadcast Bot will be down for maintenance")])
  else
    let message := String.intercalate " " args
    let recipients := db.filter (fun p => (p.2.verified).getD false)
    let sent := (recipients.filter (fun p => sendOk p.1)).length
    let failed := (recipients.filter (fun p => !(sendOk p.1))).length
    (db,
      .reply (broadcast_confirm_msg db.length message) ::
      recipients.map (fun p => Effect.send p.1 (broadcast_text message)) ++
      [.editReply (broadcast_done_msg sent failed db.length)])

/-- The chat ids a list of effects attempts to send a direct message
to. -/
def sendTargets (effs : List Effect) : List String :=
  effs.filterMap (fun e =>
    match e with
    | .send chat _ => some chat
    | _ => none)

/-- `True` when an effect is a membership query (the verification
gate); the owner commands must never produce one. -/
def isMembershipQuery : Effect → Bool
  | .checkMembershipQuery _ => true
  | _ => false

/-! ## Theorems -/

theorem str_data_append (a b : String) : (a ++ b).data = a.data ++ b.data := by
  cases a; cases b; rfl

/-- C7: when the upstream request times out, `fetch_player_data` returns
exactly the error result "Timeout - Server is slow"; timeout,
connection failure and generic request failure produce their own
distinct error messages.  `fetch_player_data` is a total Lean function
of the request outcome, so none of these outcomes raises to the
caller. -/
theorem c7_upstream_exception_results :
    fetch_player_data .timeout = .err (.str "Timeout - Server is slow") ∧
    fetch_player_data .connectionError =
      .err (.str "Connection error - API might be down") ∧
    (∀ m, fetch_player_data (.requestError m) =
      .err (.str ("Request failed: " ++ m.take 50))) ∧
    (∀ m, fetch_player_data .timeout ≠ fetch_player_data .connectionError ∧
      fetch_player_data (.requestError m) ≠ fetch_player_data .timeout ∧
      fetch_player_data (.requestError m) ≠ fetch_player_data .connectionError) := by
  refine ⟨rfl, rfl, fun m => rfl, fun m => ⟨?_, ?_, ?_⟩⟩
  · intro h
    simp [fetch_player_data] at h
  · intro h
    simp only [fetch_player_data, LookupResult.err.injEq, Json.str.injEq] at h
    have h2 := congrArg String.data h
    rw [str_data_append] at h2
    simp [String.data] at h2
  · intro h
    simp only [fetch_player_data, LookupResult.err.injEq, Json.str.injEq] at h
    have h2 := congrArg String.data h
    rw [str_data_append] at h2
    simp [String.data] at h2

/-- C2: response classification of `fetch_player_data`: a non-200 status
yields an error result carrying the status code; a 200 JSON object with
a falsy success flag yields an error result carrying the value stored
under the configured error key; a truthy success flag yields a success
result whose payload is the value under the configured data key, with
the whole response object substituted when that key is absent or its
value is empty (Python-falsy). -/
theorem c2_fetch_classification (status : Nat) (body : Json) :
    (status ≠ 200 →
      fetch_player_data (.response status body) =
        .err (.str ("API Error: " ++ toString status))) ∧
    (∀ fields, body = .obj fields →
      ((((alookup fields success_key).getD (.bool false)).truthy = false →
        ∀ m, alookup fields error_key = some m →
          fetch_player_data (.response 200 body) = .err m) ∧
      (((alookup fields success_key).getD (.bool false)).truthy = true →
        ((∀ d, alookup fields data_key = some d → d.truthy = true →
          fetch_player_data (.response 200 body) = .ok d body) ∧
        ((alookup fields data_key = none ∨
            ∃ d, alookup fields data_key = some d ∧ d.truthy = false) →
          fetch_player_data (.response 200 body) = .ok body body))))) := by
  refine ⟨fun h => ?_, fun fields hb => ?_⟩
  · simp [fetch_player_data, h]
  · subst hb
    refine ⟨fun hsf m hm => ?_, fun hst => ⟨fun d hd hdt => ?_, fun hfb => ?_⟩⟩
    · simp [fetch_player_data, hsf, hm]
    · simp [fetch_player_data, hst, hd, hdt]
    · rcases hfb with hnone | ⟨d, hd, hdf⟩
      · have h0 : (Json.obj ([] : List (String × Json))).truthy = false := rfl
        simp [fetch_player_data, hst, hnone, h0]
      · simp [fetch_player_data, hst, hd, hdf]

/-- Witness for C2: a 500 response, a successful response with a
populated data object, and a success-flag-false response with an error
message, all classified as the theorem states. -/
theorem c2_fetch_classification_witness :
    fetch_player_data (.response 500 (.obj [])) =
      .err (.str ("API Error: " ++ toString 500)) ∧
    fetch_player_data (.response 200 (.obj
        [("success", .bool true), ("data", .obj [("nickname", .str "apon")])])) =
      .ok (.obj [("nickname", .str "apon")])
        (.obj [("success", .bool true), ("data", .obj [("nickname", .str "apon")])]) ∧
    fetch_player_data (.response 200 (.obj
        [("success", .bool false), ("error", .str "player not found")])) =
      .err (.str "player not found") := by
  refine ⟨?_, ?_, ?_⟩
  · exact (c2_fetch_classification 500 (.obj [])).1 (by decide)
  · exact (((c2_fetch_classification 200
      (.obj [("success", .bool true), ("data", .obj [("nickname", .str "apon")])])).2
      [("success", .bool true), ("data", .obj [("nickname", .str "apon")])] rfl).2
      rfl).1 (.obj [("nickname", .str "apon")]) rfl rfl
  · exact ((c2_fetch_classification 200
      (.obj [("success", .bool false), ("error", .str "player not found")])).2
      [("success", .bool false), ("error", .str "player not found")] rfl).1
      rfl (.str "player not found") rfl

theorem walkParts_NA (rest : List String) :
    walkParts (.str "N/A") rest = .str "N/A" := by
  cases rest <;> rfl

theorem walkParts_misses (parts : List String) :
    ∀ v, missesAt v parts = true → walkParts v parts = .str "N/A" := by
  induction parts with
  | nil =>
    intro v h
    simp [missesAt] at h
  | cons p ps ih =>
    intro v h
    cases v with
    | obj fields =>
      simp only [missesAt] at h
      cases hl : alookup fields p with
      | none =>
        simp only [walkParts, hl, Option.getD]
        exact walkParts_NA ps
      | some v2 =>
        rw [hl] at h
        simp only [walkParts, hl, Option.getD]
        exact ih v2 h
    | null => rfl
    | bool b => rfl
    | num n => rfl
    | str s => rfl
    | arr elems => rfl

/-- C4: the field mapper resolves dotted paths by walking nested
mappings, never raising on a dotted path and yielding the sentinel
"N/A" whenever a key is missing or an intermediate value is not a
mapping; `format_profile` on a success result returns `none` exactly
when its data payload is not a mapping (the case whose `AttributeError`
the enclosing `try` catches), never merely because fields are
missing. -/
theorem c4_field_mapper_sentinel (data : Json) (key : String) :
    (strContainsDot key = true →
      ∃ v, get_value data key = .ok v ∧
        (missesAt data (splitDot key) = true → v = .str "N/A")) ∧
    (∀ raw uid nowStr,
      format_profile (.ok data raw) uid nowStr = none ↔ data.isObj = false) := by
  constructor
  · intro hdot
    have hne : ¬(key = "") := by
      intro he
      rw [he] at hdot
      exact absurd hdot (by decide)
    refine ⟨walkParts data (splitDot key), ?_, fun hm => walkParts_misses _ data hm⟩
    simp [get_value, hne, hdot]
  · intro raw uid nowStr
    cases data with
    | obj fields =>
      have hs : ∃ s, format_profile (.ok (.obj fields) raw) uid nowStr = some s :=
        ⟨_, rfl⟩
      rcases hs with ⟨s, hs⟩
      refine iff_of_false (fun h => ?_) (by simp [Json.isObj])
      rw [hs] at h
      exact Option.noConfusion h
    | null => exact iff_of_true rfl rfl
    | bool b => exact iff_of_true rfl rfl
    | num n => exact iff_of_true rfl rfl
    | str s => exact iff_of_true rfl rfl
    | arr elems => exact iff_of_true rfl rfl

/-- Witness for C4: resolving "player.rank" against a payload without a
"player" key yields the sentinel, and a success result whose payload is
a mapping is formatted even though every mapped field is missing. -/
theorem c4_field_mapper_sentinel_witness :
    (∃ v, get_value (.obj [("uid", .num 1)]) "player.rank" = .ok v ∧
      (missesAt (.obj [("uid", .num 1)]) (splitDot "player.rank") = true →
        v = .str "N/A")) ∧
    (format_profile (.ok (.obj [("uid", .num 1)]) (.obj [])) "12345" "now" = none ↔
      Json.isObj (.obj [("uid", .num 1)]) = false) :=
  ⟨(c4_field_mapper_sentinel (.obj [("uid", .num 1)]) "player.rank").1 (by decide),
   (c4_field_mapper_sentinel (.obj [("uid", .num 1)]) "player.rank").2
     (.obj []) "12345" "now"⟩

theorem alookup_dbInsert_self (db : Users) (uid : String) (r : UserRecord) :
    alookup (dbInsert db uid r) uid = some r := by
  simp [dbInsert, alookup]

theorem alookup_filter_self {α : Type} (db : List (String × α)) (uid : String) :
    alookup (db.filter (fun p => p.1 != uid)) uid = none := by
  induction db with
  | nil => rfl
  | cons p rest ih =>
    rcases p with ⟨k, r⟩
    by_cases hk : k = uid
    · subst hk
      have hb : (k != k) = false := by simp
      simpa [List.filter, hb] using ih
    · have hb : (k != uid) = true := bne_iff_ne.mpr hk
      simp [List.filter, hb, alookup, Ne.symm hk, ih]

theorem alookup_filter_ne {α : Type} (db : List (String × α)) (uid v : String)
    (h : v ≠ uid) :
    alookup (db.filter (fun p => p.1 != uid)) v = alookup db v := by
  induction db with
  | nil => rfl
  | cons p rest ih =>
    rcases p with ⟨k, r⟩
    by_cases hk : k = uid
    · subst hk
      have hb : (k != k) = false := by simp
      simp [List.filter, hb, alookup, h, ih]
    · have hb : (k != uid) = true := bne_iff_ne.mpr hk
      by_cases hv : v = k
      · subst hv
        simp [List.filter, hb, alookup]
      · simp [List.filter, hb, alookup, hv, ih]

theorem alookup_dbInsert_ne (db : Users) (uid v : String) (r : UserRecord)
    (h : v ≠ uid) :
    alookup (dbInsert db uid r) v = alookup db v := by
  simp [dbInsert, alookup, h, alookup_filter_ne db uid v h]

/-- C1: `is_verified` returns false when no record exists and when the
record is stale (now minus `last_check` exceeds `CHECK_INTERVAL`,
regardless of the stored flag); on a fresh record it returns exactly
the stored flag. -/
theorem c1_is_verified_spec (db : Users) (now : Int) (uid : String) :
    (alookup db uid = none → is_verified db now uid = false) ∧
    (∀ r, alookup db uid = some r →
      ((now - r.last_check.getD DEFAULT_LAST_CHECK > CHECK_INTERVAL →
        is_verified db now uid = false) ∧
      (¬(now - r.last_check.getD DEFAULT_LAST_CHECK > CHECK_INTERVAL) →
        is_verified db now uid = r.verified.getD false))) := by
  refine ⟨fun h => ?_, fun r hr => ⟨fun hstale => ?_, fun hfresh => ?_⟩⟩
  · simp [is_verified, h]
  · simp [is_verified, hr, hstale]
  · simp [is_verified, hr, hfresh]

/-- Witness for C1: a missing record, a stale record with flag true,
and a fresh record with flag true. -/
theorem c1_is_verified_spec_witness :
    is_verified [] 0 "7" = false ∧
    is_verified [("7", UserRecord.mk (some true) (some 100) (some 50))] 1000 "7" = false ∧
    is_verified [("7", UserRecord.mk (some true) (some 100) (some 50))] 200 "7" = true := by
  refine ⟨(c1_is_verified_spec [] 0 "7").1 rfl, ?_, ?_⟩
  · exact ((c1_is_verified_spec
      [("7", UserRecord.mk (some true) (some 100) (some 50))] 1000 "7").2
      (UserRecord.mk (some true) (some 100) (some 50)) rfl).1 (by decide)
  · exact (((c1_is_verified_spec
      [("7", UserRecord.mk (some true) (some 100) (some 50))] 200 "7").2
      (UserRecord.mk (some true) (some 100) (some 50)) rfl).2 (by decide)).trans rfl

/-- C6: `set_verified` overwrites the record's flag and stamps
`last_check` with the current time; an existing `joined_at` is
preserved, a fresh record gets `joined_at = now`, and repeated calls
for the same user never change `joined_at` again. -/
theorem c6_set_verified_frame (db : Users) (t1 t2 : Int) (uid : String)
    (f1 f2 : Bool) :
    alookup (set_verified db t1 uid f1) uid =
      some { verified := some f1, last_check := some t1,
             joined_at := some (((alookup db uid).bind (·.joined_at)).getD t1) } ∧
    (∀ r j, alookup db uid = some r → r.joined_at = some j →
      (alookup (set_verified db t1 uid f1) uid).bind (·.joined_at) = some j) ∧
    (alookup db uid = none →
      (alookup (set_verified db t1 uid f1) uid).bind (·.joined_at) = some t1) ∧
    (alookup (set_verified (set_verified db t1 uid f1) t2 uid f2) uid).bind
        (·.joined_at) =
      (alookup (set_verified db t1 uid f1) uid).bind (·.joined_at) := by
  refine ⟨?_, fun r j hr hj => ?_, fun hnone => ?_, ?_⟩
  · simp [set_verified, alookup_dbInsert_self]
  · simp [set_verified, alookup_dbInsert_self, hr, hj]
  · simp [set_verified, alookup_dbInsert_self, hnone]
  · simp [set_verified, alookup_dbInsert_self]

/-- Witness for C6: a fresh record gets `joined_at` stamped to the call
time; a pre-existing `joined_at` survives a later call. -/
theorem c6_set_verified_frame_witness :
    alookup (set_verified [] 5 "7" true) "7" =
      some (UserRecord.mk (some true) (some 5) (some 5)) ∧
    (alookup (set_verified [] 5 "7" true) "7").bind (·.joined_at) = some 5 ∧
    (alookup (set_verified [("7", UserRecord.mk (some false) (some 1) (some 42))]
        5 "7" true) "7").bind (·.joined_at) = some 42 := by
  refine ⟨(c6_set_verified_frame [] 5 6 "7" true false).1, ?_, ?_⟩
  · exact (c6_set_verified_frame [] 5 6 "7" true false).2.2.1 rfl
  · exact (c6_set_verified_frame _ 5 6 "7" true false).2.1
      (UserRecord.mk (some false) (some 1) (some 42)) 42 rfl rfl

theorem membership_loop_iff (query : String → MemberQuery) (cs : List Channel) :
    membership_loop query cs = true ↔
      ∀ c ∈ cs, ∃ s, query c.username = .ok s ∧ s ≠ "left" ∧ s ≠ "kicked" := by
  induction cs with
  | nil => simp [membership_loop]
  | cons c rest ih =>
    rw [List.forall_mem_cons]
    cases hq : query c.username with
    | failed =>
      simp only [membership_loop, hq]
      constructor
      · intro h
        exact absurd h (by simp)
      · rintro ⟨⟨s, hok, _⟩, _⟩
        exact absurd hok (by simp)
    | ok status =>
      by_cases hs : status = "left" ∨ status = "kicked"
      · simp only [membership_loop, hq, if_pos hs]
        constructor
        · intro h
          exact absurd h (by simp)
        · rintro ⟨⟨s, hok, h1, h2⟩, _⟩
          rcases MemberQuery.ok.inj hok with rfl
          rcases hs with hs | hs
          · exact absurd hs h1
          · exact absurd hs h2
      · push_neg at hs
        simp only [membership_loop, hq, if_neg (not_or.mpr hs)]
        constructor
        · intro h
          exact ⟨⟨status, rfl, hs.1, hs.2⟩, ih.mp h⟩
        · rintro ⟨_, hrest⟩
          exact ih.mpr hrest

/-- C5: the membership check reports true exactly when every configured
channel query succeeds with a status that is neither "left" nor
"kicked"; in particular a single failing (raising) channel query makes
it report false (fail-closed), each channel being queried at most once
with no retry. -/
theorem c5_membership_fail_closed (query : String → MemberQuery) :
    (check_membership query = true ↔
      ∀ c ∈ REQUIRED_CHANNELS, ∃ s, query c.username = .ok s ∧
        s ≠ "left" ∧ s ≠ "kicked") ∧
    ((∃ c ∈ REQUIRED_CHANNELS, query c.username = .failed) →
      check_membership query = false) := by
  refine ⟨membership_loop_iff query REQUIRED_CHANNELS, ?_⟩
  rintro ⟨c, hc, hfail⟩
  cases hcm : check_membership query with
  | false => rfl
  | true =>
    obtain ⟨s, hok, -⟩ :=
      ((membership_loop_iff query REQUIRED_CHANNELS).mp hcm) c hc
    rw [hfail] at hok
    exact absurd hok (by simp)

/-- Witness for C5: when every channel query raises, the check reports
false. -/
theorem c5_membership_fail_closed_witness :
    check_membership (fun _ => .failed) = false :=
  (c5_membership_fail_closed (fun _ => .failed)).2
    ⟨{ username := "developer_apon_07", url := "https://t.me/developer_apon_07",
       name := "Apon Developers Hub 💻" },
     List.mem_cons_self _ _, rfl⟩

theorem lcOf_set_verified_self (db : Users) (t : Int) (uid : String) (f : Bool) :
    lcOf (set_verified db t uid f) uid = some t := by
  simp [lcOf, set_verified, alookup_dbInsert_self]

theorem lcOf_set_verified_ne (db : Users) (t : Int) (uid v : String) (f : Bool)
    (h : v ≠ uid) :
    lcOf (set_verified db t uid f) v = lcOf db v := by
  simp [lcOf, set_verified, alookup_dbInsert_ne db uid v _ h]

theorem lcOf_remove_self (db : Users) (uid : String) :
    lcOf (remove_user db uid).1 uid = none := by
  unfold remove_user
  cases h : alookup db uid with
  | none => simp [lcOf, h]
  | some r => simp [lcOf, alookup_filter_self]

theorem lcOf_remove_ne (db : Users) (uid v : String) (h : v ≠ uid) :
    lcOf (remove_user db uid).1 v = lcOf db v := by
  unfold remove_user
  cases hu : alookup db uid with
  | none => rfl
  | some r => simp [lcOf, alookup_filter_ne db uid v h]

theorem dbBound_step {b t : Int} {db : Users} (op : DbOp)
    (h : dbBound b db) (hbt : b ≤ t) :
    dbBound t (dbStep db (t, op)) := by
  cases op with
  | setOp u f =>
    intro v s hs
    by_cases hv : v = u
    · subst hv
      rw [dbStep, lcOf_set_verified_self] at hs
      exact le_of_eq (Option.some.inj hs).symm
    · rw [dbStep, lcOf_set_verified_ne db t u v f hv] at hs
      exact le_trans (h v s hs) hbt
  | removeOp u =>
    intro v s hs
    by_cases hv : v = u
    · subst hv
      rw [dbStep, lcOf_remove_self] at hs
      exact absurd hs (by simp)
    · rw [dbStep, lcOf_remove_ne db u v hv] at hs
      exact le_trans (h v s hs) hbt
  | readOp =>
    intro v s hs
    exact le_trans (h v s hs) hbt

theorem dbExec_lc_cases (ops : List (Int × DbOp)) :
    ∀ (db : Users) (b : Int), dbBound b db →
      (∀ p ∈ ops, b ≤ p.1) →
      List.Pairwise (fun p q : Int × DbOp => p.1 ≤ q.1) ops →
      ∀ uid t2, lcOf (dbExec db ops) uid = some t2 →
        lcOf db uid = some t2 ∨ b ≤ t2 := by
  induction ops with
  | nil =>
    intro db b _ _ _ uid t2 h
    exact .inl h
  | cons p rest ih =>
    rcases p with ⟨t, op⟩
    intro db b hb hlb hpw uid t2 h
    have hbt : b ≤ t := hlb (t, op) (List.mem_cons_self _ _)
    have hb1 : dbBound t (dbStep db (t, op)) := dbBound_step op hb hbt
    have hpc := List.pairwise_cons.mp hpw
    have h2 : lcOf (dbExec (dbStep db (t, op)) rest) uid = some t2 := by
      simpa [dbExec, List.foldl_cons] using h
    rcases ih (dbStep db (t, op)) t hb1 hpc.1 hpc.2 uid t2 h2 with h1 | h1
    · cases op with
      | setOp u f =>
        by_cases hv : uid = u
        · subst hv
          rw [dbStep, lcOf_set_verified_self] at h1
          exact .inr (le_trans hbt (le_of_eq (Option.some.inj h1)))
        · rw [dbStep, lcOf_set_verified_ne db t u uid f hv] at h1
          exact .inl h1
      | removeOp u =>
        by_cases hv : uid = u
        · subst hv
          rw [dbStep, lcOf_remove_self] at h1
          exact absurd h1 (by simp)
        · rw [dbStep, lcOf_remove_ne db u uid hv] at h1
          exact .inl h1
      | readOp => exact .inl h1
    · exact .inr (le_trans hbt h1)

theorem endTime_le {b c : Int} (ops : List (Int × DbOp)) (hb : b ≤ c)
    (hops : ∀ p ∈ ops, p.1 ≤ c) : endTime b ops ≤ c := by
  induction ops generalizing b with
  | nil => exact hb
  | cons p rest ih =>
    rw [endTime, List.foldl_cons]
    exact ih (max_le hb (hops p (List.mem_cons_self _ _)))
      (fun q hq => hops q (List.mem_cons_of_mem _ hq))

theorem le_endTime (b : Int) (ops : List (Int × DbOp)) : b ≤ endTime b ops := by
  induction ops generalizing b with
  | nil => exact le_refl b
  | cons p rest ih =>
    rw [endTime, List.foldl_cons]
    exact le_trans (le_max_left b p.1) (ih (max b p.1))

theorem endTime_base_mono {b1 b2 : Int} (ops : List (Int × DbOp)) (h : b1 ≤ b2) :
    endTime b1 ops ≤ endTime b2 ops := by
  induction ops generalizing b1 b2 with
  | nil => exact h
  | cons p rest ih =>
    rw [endTime, List.foldl_cons, endTime, List.foldl_cons]
    exact ih (max_le_max h (le_refl p.1))

theorem dbBound_dbExec (ops : List (Int × DbOp)) :
    ∀ (db : Users) (b : Int), dbBound b db →
      (∀ p ∈ ops, b ≤ p.1) →
      List.Pairwise (fun p q : Int × DbOp => p.1 ≤ q.1) ops →
      dbBound (endTime b ops) (dbExec db ops) := by
  induction ops with
  | nil =>
    intro db b hb _ _
    exact hb
  | cons p rest ih =>
    rcases p with ⟨t, op⟩
    intro db b hb hlb hpw
    have hbt : b ≤ t := hlb (t, op) (List.mem_cons_self _ _)
    have hb1 : dbBound t (dbStep db (t, op)) := dbBound_step op hb hbt
    have hpc := List.pairwise_cons.mp hpw
    have hrec := ih (dbStep db (t, op)) t hb1 hpc.1 hpc.2
    have hmono : endTime t rest ≤ endTime (max b t) rest :=
      endTime_base_mono rest (le_max_right b t)
    simp only [endTime, List.foldl_cons, dbExec]
    intro v s hs
    exact le_trans (hrec v s (by simpa [dbExec] using hs)) hmono

/-- C8: across any operation sequence on the user database whose
timestamps are non-decreasing and start no earlier than every
`last_check` already stored, the `last_check` of any given user never
decreases: comparing the value after a prefix of the operations with
the value after the whole sequence always gives `t1 ≤ t2` (each
verification check overwrites it with the current time; no operation
writes an earlier one). -/
theorem c8_last_check_monotone (db : Users) (ops1 ops2 : List (Int × DbOp))
    (uid : String) (b t1 t2 : Int)
    (hb : dbBound b db)
    (hpw : List.Pairwise (fun p q : Int × DbOp => p.1 ≤ q.1) (ops1 ++ ops2))
    (hlb : ∀ p ∈ ops1 ++ ops2, b ≤ p.1)
    (h1 : lcOf (dbExec db ops1) uid = some t1)
    (h2 : lcOf (dbExec db (ops1 ++ ops2)) uid = some t2) :
    t1 ≤ t2 := by
  have hsplit : dbExec db (ops1 ++ ops2) = dbExec (dbExec db ops1) ops2 := by
    simp [dbExec, List.foldl_append]
  have hpwapp := List.pairwise_append.mp hpw
  have hbound1 : dbBound (endTime b ops1) (dbExec db ops1) :=
    dbBound_dbExec ops1 db b hb
      (fun p hp => hlb p (List.mem_append_left _ hp)) hpwapp.1
  have ht1b1 : t1 ≤ endTime b ops1 := hbound1 uid t1 h1
  have hlb2 : ∀ q ∈ ops2, endTime b ops1 ≤ q.1 := by
    intro q hq
    exact endTime_le ops1 (hlb q (List.mem_append_right _ hq))
      (fun p hp => hpwapp.2.2 p hp q hq)
  rcases dbExec_lc_cases ops2 (dbExec db ops1) (endTime b ops1) hbound1 hlb2
      hpwapp.2.1 uid t2 (hsplit ▸ h2) with hcase | hcase
  · rw [h1] at hcase
    exact le_of_eq (Option.some.inj hcase)
  · exact le_trans ht1b1 hcase

/-- Witness for C8: two successive verification checks at instants 1
and 2 on an initially empty database leave 1 ≤ 2 between the stored
stamps. -/
theorem c8_last_check_monotone_witness :
    lcOf (dbExec [] [(1, .setOp "7" true)]) "7" = some 1 ∧
    lcOf (dbExec [] ([(1, .setOp "7" true)] ++ [(2, .setOp "7" false)])) "7" =
      some 2 ∧
    (1 : Int) ≤ 2 := by
  refine ⟨rfl, rfl, ?_⟩
  exact c8_last_check_monotone [] [(1, .setOp "7" true)]
    [(2, .setOp "7" false)] "7" 0 1 2
    (fun uid t h => by simp [lcOf, alookup] at h)
    (by simp [List.pairwise_cons])
    (by
      intro p hp
      rcases List.mem_cons.mp hp with rfl | hp2
      · norm_num
      rcases List.mem_cons.mp hp2 with rfl | hp3
      · norm_num
      exact absurd hp3 (List.not_mem_nil p))
    rfl rfl

/-- C3 counterexample: the identifier made of five Arabic-Indic digits
passes the code's validation (Python `isdigit` accepts it) although it
does not match the ASCII regular expression `[0-9]` of the claim. -/
theorem c3_counterexample :
    handle_uid_validation "٠١٢٣٤" =
      .upstreamFetch "٠١٢٣٤" ∧
    spec_regex_match "٠١٢٣٤" = false := by
  constructor
  · rfl
  · rfl

theorem spec_regex_match_passes (uid : String) (h : spec_regex_match uid = true) :
    pyIsDigit uid = true ∧ 5 ≤ uid.length ∧ uid.length ≤ 15 := by
  rw [spec_regex_match] at h
  simp only [Bool.and_eq_true, decide_eq_true_eq, List.all_eq_true] at h
  obtain ⟨⟨h1, h2⟩, h3⟩ := h
  refine ⟨?_, h2, h3⟩
  rw [pyIsDigit]
  simp only [Bool.and_eq_true, Bool.not_eq_true', List.all_eq_true]
  constructor
  · cases hd : uid.data with
    | nil =>
      exfalso
      have : uid.length = 0 := by
        rw [String.length, hd]
        rfl
      omega
    | cons c rest => rfl
  · intro c hc
    have hb := h1 c hc
    simp only [Bool.and_eq_true, decide_eq_true_eq] at hb
    rw [pyIsDigitChar]
    simp only [Bool.or_eq_true, Bool.and_eq_true, decide_eq_true_eq]
    exact .inl (.inl (.inl (.inl (.inl (.inl (.inl (.inl (.inl (.inl hb)))))))))

/-- C3 amended: validation in the lookup handler passes exactly when the
identifier is a non-empty string of Python digit characters (which
include non-ASCII Unicode digits) of length 5 to 15; every identifier
matching the ASCII pattern `[0-9]` with length 5-15 passes, and every
rejected identifier gets a validation error, so no upstream call is
made for it. -/
theorem c3_validation_amended (uid : String) :
    (handle_uid_validation uid = .upstreamFetch uid ↔
      (pyIsDigit uid = true ∧ 5 ≤ uid.length ∧ uid.length ≤ 15)) ∧
    (handle_uid_validation uid = .upstreamFetch uid ∨
      handle_uid_validation uid = .validationError invalid_uid_msg ∨
      handle_uid_validation uid = .validationError invalid_len_msg) ∧
    (spec_regex_match uid = true →
      handle_uid_validation uid = .upstreamFetch uid) := by
  by_cases hd : pyIsDigit uid = true
  · by_cases hlen : uid.length < 5 ∨ uid.length > 15
    · refine ⟨?_, .inr (.inr ?_), ?_⟩
      · rw [handle_uid_validation, if_neg (by simpa using hd), if_pos hlen]
        constructor
        · intro h
          exact absurd h (by simp)
        · rintro ⟨-, h2, h3⟩
          omega
      · rw [handle_uid_validation, if_neg (by simpa using hd), if_pos hlen]
      · intro hspec
        obtain ⟨-, h2, h3⟩ := spec_regex_match_passes uid hspec
        omega
    · have heq : handle_uid_validation uid = .upstreamFetch uid := by
        rw [handle_uid_validation, if_neg (by simpa using hd), if_neg hlen]
      refine ⟨?_, .inl heq, fun _ => heq⟩
      rw [heq]
      push_neg at hlen
      simp only [true_iff, heq]
      exact ⟨hd, hlen.1, by omega⟩
  · have heq : handle_uid_validation uid = .validationError invalid_uid_msg := by
      rw [handle_uid_validation, if_pos (by simpa using hd)]
    refine ⟨?_, .inr (.inl heq), ?_⟩
    · rw [heq]
      constructor
      · intro h
        exact absurd h (by simp)
      · rintro ⟨h1, -⟩
        exact absurd h1 hd
    · intro hspec
      exact absurd (spec_regex_match_passes uid hspec).1 hd

/-- Witness for C3: the ASCII identifier "1484443876" matches the
spec pattern and passes validation. -/
theorem c3_validation_amended_witness :
    handle_uid_validation "1484443876" = .upstreamFetch "1484443876" :=
  (c3_validation_amended "1484443876").2.2 (by decide)

/-- C9: the owner-restricted commands (statistics and broadcast) never
perform a membership/verification check, never change the user
database, grant the action exactly to the single configured owner id,
and answer every other caller with their fixed denial message. -/
theorem c9_owner_gate (caller : Int) (db : Users) (now : Int) (nowStr : String)
    (args : List String) (sendOk : String → Bool) :
    (stats_command caller db now nowStr).2.all
      (fun e => !(isMembershipQuery e)) = true ∧
    (broadcast_command caller args db sendOk).2.all
      (fun e => !(isMembershipQuery e)) = true ∧
    (stats_command caller db now nowStr).1 = db ∧
    (broadcast_command caller args db sendOk).1 = db ∧
    (caller ≠ OWNER_ID →
      (stats_command caller db now nowStr).2 = [.reply stats_denied_msg] ∧
      (broadcast_command caller args db sendOk).2 =
        [.reply broadcast_denied_msg]) ∧
    (caller = OWNER_ID →
      (stats_command caller db now nowStr).2 =
        [.reply (stats_text db now nowStr)]) := by
  by_cases hc : caller = OWNER_ID
  · subst hc
    refine ⟨?_, ?_, ?_, ?_, fun hne => absurd rfl hne, fun _ => ?_⟩
    · simp [stats_command, isMembershipQuery]
    · rw [broadcast_command, if_neg (fun h => h rfl)]
      cases args with
      | nil => simp [isMembershipQuery]
      | cons a rest =>
        rw [if_neg (show ¬((a :: rest).isEmpty = true) by simp)]
        rw [List.all_eq_true]
        intro e he
        rcases List.mem_cons.mp he with rfl | he2
        · rfl
        rcases List.mem_append.mp he2 with he3 | he4
        · obtain ⟨p, hp, rfl⟩ := List.mem_map.mp he3
          rfl
        rcases List.mem_cons.mp he4 with rfl | he5
        · rfl
        exact absurd he5 (List.not_mem_nil e)
    · simp [stats_command]
    · rw [broadcast_command, if_neg (fun h => h rfl)]
      cases args with
      | nil => rfl
      | cons a rest => simp
    · simp [stats_command]
  · refine ⟨?_, ?_, ?_, ?_, fun _ => ⟨?_, ?_⟩, fun he => absurd he hc⟩
    · simp [stats_command, hc, isMembershipQuery]
    · simp [broadcast_command, hc, isMembershipQuery]
    · simp [stats_command, hc]
    · simp [broadcast_command, hc]
    · simp [stats_command, hc]
    · simp [broadcast_command, hc]

/-- Witness for C9: a non-owner caller (id 0) is denied by both
commands; the owner gets the statistics text. -/
theorem c9_owner_gate_witness :
    (stats_command 0 [] 0 "t").2 = [.reply stats_denied_msg] ∧
    (broadcast_command 0 ["hi"] [] (fun _ => true)).2 =
      [.reply broadcast_denied_msg] ∧
    (stats_command OWNER_ID [] 0 "t").2 = [.reply (stats_text [] 0 "t")] :=
  ⟨((c9_owner_gate 0 [] 0 "t" ["hi"] (fun _ => true)).2.2.2.2.1 (by decide)).1,
   ((c9_owner_gate 0 [] 0 "t" ["hi"] (fun _ => true)).2.2.2.2.1 (by decide)).2,
   (c9_owner_gate OWNER_ID [] 0 "t" ["hi"] (fun _ => true)).2.2.2.2.2 rfl⟩

/-- C10: an owner broadcast with a non-empty message attempts to send
exactly to the users whose stored record has a truthy verified flag,
skipping every other user, while the confirmation message it sends
first reports the total user count of the database as the audience. -/
theorem c10_broadcast_audience (db : Users) (args : List String)
    (sendOk : String → Bool) (h : args ≠ []) :
    sendTargets (broadcast_command OWNER_ID args db sendOk).2 =
      (db.filter (fun p => (p.2.verified).getD false)).map (fun p => p.1) ∧
    (broadcast_command OWNER_ID args db sendOk).2.head? =
      some (.reply (broadcast_confirm_msg db.length
        (String.intercalate " " args))) := by
  rw [broadcast_command, if_neg (fun hne => hne rfl)]
  cases args with
  | nil => exact absurd rfl h
  | cons a rest =>
    simp only [List.isEmpty_cons, if_neg Bool.false_ne_true]
    constructor
    · simp only [sendTargets, List.filterMap_cons, List.filterMap_append,
        List.filterMap_map]
      simp only [Function.comp_def]
      rw [show (fun (x : String × UserRecord) => some x.1) =
        some ∘ (fun (x : String × UserRecord) => x.1) from rfl,
        List.filterMap_eq_map]
      simp
    · rfl

/-- Witness for C10: with one verified and one unverified user, the
broadcast targets only the verified one while announcing both. -/
theorem c10_broadcast_audience_witness :
    sendTargets (broadcast_command OWNER_ID ["hello"]
      [("1", UserRecord.mk (some true) (some 0) (some 0)),
       ("2", UserRecord.mk (some false) (some 0) (some 0))]
      (fun _ => true)).2 = ["1"] ∧
    (broadcast_command OWNER_ID ["hello"]
      [("1", UserRecord.mk (some true) (some 0) (some 0)),
       ("2", UserRecord.mk (some false) (some 0) (some 0))]
      (fun _ => true)).2.head? =
      some (.reply (broadcast_confirm_msg 2 "hello")) := by
  have h := c10_broadcast_audience
    [("1", UserRecord.mk (some true) (some 0) (some 0)),
     ("2", UserRecord.mk (some false) (some 0) (some 0))]
    ["hello"] (fun _ => true) (by simp)
  exact ⟨h.1.trans rfl, h.2.trans rfl⟩

end FFInfoBot
